import Mathlib

/-!
# Verification of the Nanodbc result-set cursor and typed-extraction engine

This file gives a shallow embedding of `Result::ResultImpl` from
`src/Nanodbc.cpp` (cursor navigation, batch fetching, auto-binding, null
handling, typed extraction dispatch, and diagnostic-error assembly) and
proves or refutes the frozen specification claims about it.

The external ODBC driver (`SQLFetchScroll`, `SQLGetDiagRec`,
`SQL_ATTR_ROW_NUMBER`, `SQL_ATTR_ROWS_FETCHED_PTR`) is not part of the
repository; it is modelled here as a block-cursor environment following the
ODBC semantics the spec's §6 describes for the external collaborator.
All ODBC numeric constants are taken verbatim from the headers the source
includes (`sql.h` / `sqlext.h` values).
-/

namespace Nanodbc

/-! ## ODBC constants (values from sql.h / sqlext.h, as used by the source) -/

def SQL_NULL_DATA : Int := -1
def SQL_NO_DATA : Int := 100

def SQL_C_CHAR : Int := 1
def SQL_C_LONG : Int := 4
def SQL_C_SSHORT : Int := -15
def SQL_C_USHORT : Int := -17
def SQL_C_SLONG : Int := -16
def SQL_C_ULONG : Int := -18
def SQL_C_FLOAT : Int := 7
def SQL_C_DOUBLE : Int := 8
def SQL_C_SBIGINT : Int := -25
def SQL_C_UBIGINT : Int := -27
def SQL_C_WCHAR : Int := -8
def SQL_C_BINARY : Int := -2
def SQL_C_DATE : Int := 9
def SQL_C_TIME : Int := 10
def SQL_C_TIMESTAMP : Int := 11
def SQL_C_GUID : Int := -11

def SQL_BIT : Int := -7
def SQL_TINYINT : Int := -6
def SQL_SMALLINT : Int := 5
def SQL_INTEGER : Int := 4
def SQL_BIGINT : Int := -5
def SQL_DOUBLE : Int := 8
def SQL_FLOAT : Int := 6
def SQL_DECIMAL : Int := 3
def SQL_REAL : Int := 7
def SQL_NUMERIC : Int := 2
def SQL_DATE : Int := 9
def SQL_TYPE_DATE : Int := 91
def SQL_TIME : Int := 10
def SQL_TYPE_TIME : Int := 92
def SQL_TIMESTAMP : Int := 11
def SQL_TYPE_TIMESTAMP : Int := 93
def SQL_CHAR : Int := 1
def SQL_VARCHAR : Int := 12
def SQL_WCHAR : Int := -8
def SQL_WVARCHAR : Int := -9
def SQL_LONGVARCHAR : Int := -1
def SQL_BINARY : Int := -2
def SQL_VARBINARY : Int := -3
def SQL_LONGVARBINARY : Int := -4
def SQL_SS_UDT : Int := -151

/-! ## The external driver: block-cursor state and `SQLFetchScroll`

Modelled from the spec (§6): the external native statement layer exposes
`fetch(batch_offset, orientation) -> rows_available | no_data` with ODBC
block-cursor (fetch-scroll) semantics, and a `row_count_pointer` updated
with the rows delivered by the last fetch.  A cursor over `numRows` rows is
either before the first rowset, positioned on a rowset whose first row is
`start` (1-based), or after the end. -/

inductive CursorPos
  | beforeStart
  | onRowset (start : Nat)
  | afterEnd
deriving Repr, DecidableEq

structure DriverState where
  numRows : Nat
  pos : CursorPos
deriving Repr, DecidableEq

/-- Fetch orientations used by the source (`SQL_FETCH_*`). -/
inductive Orientation
  | next | first | last | prior | absolute | relative
deriving Repr, DecidableEq

/-- Outcome of one native `SQLFetchScroll` call: the number of rows
delivered into the bound buffers, or `SQL_NO_DATA`. -/
inductive FetchRC
  | rowsFetched (n : Nat)
  | noData
deriving Repr, DecidableEq

/-- Position the cursor on the rowset starting at 1-based row `t`
(clamped outcome): before the result if `t ≤ 0`, after it if `t` exceeds
`numRows`, otherwise on the rowset, delivering
`min B (numRows - (t - 1))` rows. -/
def clampStart (numRows B : Nat) (t : Int) : CursorPos × FetchRC :=
  if t ≤ 0 then (.beforeStart, .noData)
  else if (numRows : Int) < t then (.afterEnd, .noData)
  else (.onRowset t.toNat, .rowsFetched (min B (numRows - (t.toNat - 1))))

/-- Modelled from the spec: the external driver's `SQLFetchScroll` over a
block cursor of rowset size `B`.  Computes the 1-based start of the target
rowset from the orientation and offset, per the ODBC fetch-scroll rules. -/
def fetchScroll (d : DriverState) (B : Nat) (o : Orientation) (off : Int) :
    DriverState × FetchRC :=
  let lastStart : Int := if B ≤ d.numRows then (d.numRows : Int) - B + 1 else 1
  let t : Option Int :=
    match o, d.pos with
    | .first, _ => some 1
    | .last, _ => some lastStart
    | .next, .beforeStart => some 1
    | .next, .onRowset s => some ((s : Int) + B)
    | .next, .afterEnd => none
    | .prior, .beforeStart => some 0
    | .prior, .onRowset s => if s ≤ 1 then some 0 else some (max 1 ((s : Int) - B))
    | .prior, .afterEnd => some lastStart
    | .absolute, _ => if off < 0 then some ((d.numRows : Int) + off + 1) else some off
    | .relative, .onRowset s => some ((s : Int) + off)
    | .relative, .beforeStart => if off ≤ 0 then some 0 else some off
    | .relative, .afterEnd => some ((d.numRows : Int) + 1 + off)
  match t with
  | none => ({ d with pos := .afterEnd }, .noData)
  | some ti =>
      let pr := clampStart d.numRows B ti
      ({ d with pos := pr.1 }, pr.2)

/-- `SQL_ATTR_ROW_NUMBER`: the driver reports the 1-based number of the
first row of the current rowset, or `0` when there is no current row
(the "position unknown" response is also folded to `0`, as `position()`
and `atEnd()` in the source treat `0` and `SQL_ROW_NUMBER_UNKNOWN` alike). -/
def rowNumberAttr (d : DriverState) : Nat :=
  match d.pos with
  | .onRowset s => s
  | _ => 0

/-! ## Bound columns (`class bound_column`, Nanodbc.cpp:555-592) -/

/-- One row slot of a bound data buffer.  `auto_bind` binds each column's
buffer with the column's chosen C type, so a slot holds a value of that
type; `uninit` stands for freshly `new[]`-allocated (uninitialized) memory,
and `rawOther` for contents this embedding does not interpret (floating-point
and date/time payloads, which no claim inspects). -/
inductive RawCell
  | i64 (v : Int)
  | i32 (v : Int)
  | i16 (v : Int)
  | u16 (v : Int)
  | u32 (v : Int)
  | u64 (v : Int)
  | chars (bytes : List Int)
  | wchars (units : List Int)
  | uninit
  | rawOther
deriving Repr, DecidableEq

/-- `bound_column` (Nanodbc.cpp:555): per-column descriptor and buffers.
`cbdata_` is the null/length indicator array (`NullType*`), one slot per
rowset row; `pdata_` the fixed row-array data buffer (`char*`), `none`
standing for the null pointer. -/
structure BoundColumn where
  name_ : String
  column_ : Nat
  sqltype_ : Int
  sqlsize_ : Nat
  scale_ : Int
  ctype_ : Int
  clen_ : Nat
  blob_ : Bool
  cbdata_ : List Int
  pdata_ : Option (List RawCell)
deriving Repr, DecidableEq, Inhabited

/-! ## `Result::ResultImpl` state (Nanodbc.cpp:2509-2520)

`fetchLog` is ghost instrumentation recording every native `SQLFetchScroll`
call `fetch` issues (orientation and offset), so that "how many native
fetches happened" is observable in theorems; it mirrors no source field and
influences no behaviour. -/

structure FetchCall where
  orientation : Orientation
  offset : Int
deriving Repr, DecidableEq

structure ResultState where
  drv : DriverState
  rowset_size : Nat
  row_count : Nat
  rowset_position : Int
  at_end : Bool
  cols : List BoundColumn
  fetchLog : List FetchCall
deriving Repr, DecidableEq

/-- `rows()` (Nanodbc.cpp:1963): the value behind
`SQL_ATTR_ROWS_FETCHED_PTR`, i.e. rows delivered by the last fetch. -/
def ResultState.rows (st : ResultState) : Nat := st.row_count

/-- `before_move()` (Nanodbc.cpp:2276-2286): zero every indicator slot of
every bound column, and for blob columns with an allocated retrieval buffer
release it (`release_bound_resources`: `pdata_ = 0`, `clen_ = 0`). -/
def clearColumn (c : BoundColumn) : BoundColumn :=
  let c1 := { c with cbdata_ := c.cbdata_.map fun _ => 0 }
  if c1.blob_ ∧ c1.pdata_.isSome then { c1 with pdata_ := none, clen_ := 0 }
  else c1

def before_move (st : ResultState) : ResultState :=
  { st with cols := st.cols.map clearColumn }

/-- `fetch(rows, orientation)` (Nanodbc.cpp:2307-2332, synchronous path):
clear buffers via `before_move`, issue `SQLFetchScroll`; `SQL_NO_DATA`
sets `at_end_` and returns `false`, success returns `true`.  The driver
stores the delivered row count through `SQL_ATTR_ROWS_FETCHED_PTR`
(`row_count`), writing `0` on `SQL_NO_DATA`. -/
def fetch (st : ResultState) (rows : Int) (orientation : Orientation) :
    ResultState × Bool :=
  let st1 := before_move st
  let dr := fetchScroll st1.drv st1.rowset_size orientation rows
  let st2 := { st1 with
    drv := dr.1
    fetchLog := st1.fetchLog ++ [⟨orientation, rows⟩]
    row_count := match dr.2 with | .rowsFetched n => n | .noData => 0 }
  match dr.2 with
  | .noData => ({ st2 with at_end := true }, false)
  | .rowsFetched _ => (st2, true)

/-- `first()` (Nanodbc.cpp:1971-1975). -/
def first (st : ResultState) : ResultState × Bool :=
  fetch { st with rowset_position := 0 } 0 .first

/-- `last()` (Nanodbc.cpp:1977-1981). -/
def last (st : ResultState) : ResultState × Bool :=
  fetch { st with rowset_position := 0 } 0 .last

/-- `next()` (Nanodbc.cpp:1983-1989): if the last fetch delivered rows and
the incremented in-batch offset is still inside the rowset, no native call
is made and the result is whether the offset is below the delivered row
count; otherwise the offset resets to 0 and a `SQL_FETCH_NEXT` is issued. -/
def next (st : ResultState) : ResultState × Bool :=
  if st.rows ≠ 0 ∧ st.rowset_position + 1 < (st.rowset_size : Int) then
    ({ st with rowset_position := st.rowset_position + 1 },
      decide (st.rowset_position + 1 < (st.rows : Int)))
  else
    fetch { st with rowset_position := 0 } 0 .next

/-- `prior()` (Nanodbc.cpp:2018-2024): if the last fetch delivered rows and
the decremented offset is still non-negative, only the in-memory offset
moves; otherwise the offset resets to 0 and a `SQL_FETCH_PRIOR` is issued. -/
def prior (st : ResultState) : ResultState × Bool :=
  if st.rows ≠ 0 ∧ 0 ≤ st.rowset_position - 1 then
    ({ st with rowset_position := st.rowset_position - 1 }, true)
  else
    fetch { st with rowset_position := 0 } 0 .prior

/-- `move(row)` (Nanodbc.cpp:2026-2030). -/
def move (st : ResultState) (row : Int) : ResultState × Bool :=
  fetch { st with rowset_position := 0 } row .absolute

/-- `skip(rows)` (Nanodbc.cpp:2032-2039): like `next` but advancing the
offset by `rows`; the refetch is `SQL_FETCH_RELATIVE` by `rows`. -/
def skip (st : ResultState) (rows : Int) : ResultState × Bool :=
  if st.rows ≠ 0 ∧ st.rowset_position + rows < (st.rowset_size : Int) then
    ({ st with rowset_position := st.rowset_position + rows },
      decide (st.rowset_position + rows < (st.rows : Int)))
  else
    fetch { st with rowset_position := 0 } rows .relative

/-- `atEnd()` (Nanodbc.cpp:2070-2085): true if the `at_end_` flag is set;
otherwise query `SQL_ATTR_ROW_NUMBER` and evaluate `pos - 1 > rows()` in
unsigned arithmetic (`pos = 0` underflows and compares true). -/
def atEnd (st : ResultState) : Bool :=
  if st.at_end then true
  else
    let pos := rowNumberAttr st.drv
    if pos = 0 then true else decide (pos - 1 > st.rows)

/-- `position()` (Nanodbc.cpp:2041-2068): 0 for "no current row / position
unknown", otherwise the driver row number plus the in-batch offset. -/
def position (st : ResultState) : Int :=
  let pos := rowNumberAttr st.drv
  if pos = 0 then 0 else (pos : Int) + st.rowset_position

/-- Derived observation (not a source member): the 0-indexed absolute row
whose buffered data the typed getters address, namely the start of the
current rowset plus `rowset_position_`. -/
def currentRow0 (st : ResultState) : Option Int :=
  match st.drv.pos with
  | .onRowset s => some ((s : Int) - 1 + st.rowset_position)
  | _ => none

/-- The state a fresh `ResultImpl` is in right after construction
(Nanodbc.cpp:1918-1953): rowset size registered with the driver,
`row_count_ = 0`, offset 0, `at_end_ = false`, cursor not yet positioned. -/
def mkResult (numRows B : Nat) (cols : List BoundColumn) : ResultState :=
  { drv := ⟨numRows, .beforeStart⟩
  , rowset_size := B
  , row_count := 0
  , rowset_position := 0
  , at_end := false
  , cols := cols
  , fetchLog := [] }

/-- Run `k` successive `next()` calls, collecting their boolean returns. -/
def runNexts (st : ResultState) : Nat → ResultState × List Bool
  | 0 => (st, [])
  | k + 1 =>
      let r1 := next st
      let r2 := runNexts r1.1 k
      (r2.1, r1.2 :: r2.2)

/-! ## Typed access: `isNull`, `column`, `getRef`, `get`
(Nanodbc.cpp:2087-2110, 2196-2270) -/

/-- The exceptions the accessors throw, plus `unmodelled` for outcomes this
embedding leaves uninterpreted (floating-point formatting, locale/encoding
conversion, blob chunk loops) and `undefinedAccess` for reads the C++ would
perform through a bad pointer.  No theorem below relies on a branch that
yields `unmodelled` or `undefinedAccess`. -/
inductive GetResult (α : Type)
  | ok (v : α)
  | indexRange
  | nullAccess
  | typeIncompatible
  | unmodelled
  | undefinedAccess
deriving Repr, DecidableEq

/-- The data cell of `col` that the row offset `pos` addresses
(`col.pdata_ + pos * col.clen_` in the source). -/
def readCell (col : BoundColumn) (pos : Nat) : Option RawCell :=
  match col.pdata_ with
  | none => none
  | some cells => cells.get? pos

/-- `isNull(short column)` (Nanodbc.cpp:2087-2095): bounds-check the
ordinal, then the in-batch offset against `rows()`, then compare the
indicator slot `cbdata_[rowset_position_]` with `SQL_NULL_DATA`. -/
def isNull (st : ResultState) (column : Nat) : GetResult Bool :=
  if st.cols.length ≤ column then .indexRange
  else
    let col := st.cols.getD column default
    if (st.rows : Int) ≤ st.rowset_position then .indexRange
    else .ok (col.cbdata_.getD st.rowset_position.toNat 0 = SQL_NULL_DATA)

/-- The name → descriptor map `bound_columns_by_name_`: `auto_bind` runs
`bound_columns_by_name_[col.name_] = &col` for each column in ordinal order
(Nanodbc.cpp:2397); `std::map::operator[]` inserts a new key or overwrites
the mapped value of an existing one. -/
def mapInsert (m : List (String × Nat)) (k : String) (v : Nat) :
    List (String × Nat) :=
  match m with
  | [] => [(k, v)]
  | (k', v') :: rest =>
      if k' = k then (k', v) :: rest else (k', v') :: mapInsert rest k v

def registerNames (cols : List BoundColumn) : List (String × Nat) :=
  cols.foldl (fun m c => mapInsert m c.name_ c.column_) []

/-- `column(const StringType&)` (Nanodbc.cpp:2103-2110): look the name up
in `bound_columns_by_name_`; a missing name throws `IndexRangeError`. -/
def columnByName (st : ResultState) (name : String) : GetResult Nat :=
  match (registerNames st.cols).lookup name with
  | none => .indexRange
  | some c => .ok c

/-- `getRef<T>(short column, T&)` (Nanodbc.cpp:2196-2204), parameterized by
the `get_ref_impl<T>` instantiation: bounds check, null check (null without
fallback throws `NullAccessError`), then the typed implementation. -/
def getRefWith {α : Type} (impl : ResultState → Nat → GetResult α)
    (st : ResultState) (column : Nat) : GetResult α :=
  if st.cols.length ≤ column then .indexRange
  else
    match isNull st column with
    | .ok true => .nullAccess
    | .ok false => impl st column
    | _ => .indexRange

/-- `getRef<T>(short column, const T& fallback, T&)`
(Nanodbc.cpp:2206-2217): a null cell returns the fallback instead. -/
def getRefFallbackWith {α : Type} (impl : ResultState → Nat → GetResult α)
    (st : ResultState) (column : Nat) (fallback : α) : GetResult α :=
  if st.cols.length ≤ column then .indexRange
  else
    match isNull st column with
    | .ok true => .ok fallback
    | .ok false => impl st column
    | _ => .indexRange

/-- `getRef<T>(const StringType& columnName, T&)` (Nanodbc.cpp:2219-2226):
resolve the name (throwing `IndexRangeError` when absent), then null-check
and dispatch; note there is no separate ordinal bounds check on this path. -/
def getRefByNameWith {α : Type} (impl : ResultState → Nat → GetResult α)
    (st : ResultState) (name : String) : GetResult α :=
  match columnByName st name with
  | .ok column =>
      match isNull st column with
      | .ok true => .nullAccess
      | .ok false => impl st column
      | _ => .indexRange
  | _ => .indexRange

/-- `getRef<T>(const StringType&, const T& fallback, T&)`
(Nanodbc.cpp:2228-2238). -/
def getRefByNameFallbackWith {α : Type} (impl : ResultState → Nat → GetResult α)
    (st : ResultState) (name : String) (fallback : α) : GetResult α :=
  match columnByName st name with
  | .ok column =>
      match isNull st column with
      | .ok true => .ok fallback
      | .ok false => impl st column
      | _ => .indexRange
  | _ => .indexRange

/-- `get<T>` (Nanodbc.cpp:2240-2270) default-constructs a `T` and delegates
to the matching `getRef` overload, so its observable outcome is the same. -/
def getWith {α : Type} (impl : ResultState → Nat → GetResult α)
    (st : ResultState) (column : Nat) : GetResult α :=
  getRefWith impl st column

def getFallbackWith {α : Type} (impl : ResultState → Nat → GetResult α)
    (st : ResultState) (column : Nat) (fallback : α) : GetResult α :=
  getRefFallbackWith impl st column fallback

/-! ## `get_ref_impl` instantiations -/

/-- Two's-complement reinterpretation of an unsigned 64-bit value as
`int64_t` (the `(T)*(uint64_t*)(s)` cast with `T = int64_t`). -/
def toSigned64 (v : Int) : Int := if v < 2 ^ 63 then v else v - 2 ^ 64

/-- The primary template `get_ref_impl<T>` for `T = int64_t`
(Nanodbc.cpp:2926-2966): dispatch on the column's bound C type, reading the
row's slot `col.pdata_ + rowset_position_ * col.clen_` and casting.  The
`SQL_C_CHAR` case dereferences the buffer as a single `char`, i.e. yields
the first byte of the character buffer.  C types absent from the switch
throw `TypeIncompatipleError`.  Casts from floating sources are left
`unmodelled`; a slot whose stored C type does not match the dispatched
case would be a reinterpreted read and is `undefinedAccess`. -/
def get_ref_impl_int64 (st : ResultState) (column : Nat) : GetResult Int :=
  let col := st.cols.getD column default
  let cell := readCell col st.rowset_position.toNat
  if col.ctype_ = SQL_C_CHAR then
    match cell with
    | some (.chars (b :: _)) => .ok b
    | _ => .undefinedAccess
  else if col.ctype_ = SQL_C_SSHORT then
    match cell with
    | some (.i16 v) => .ok v
    | _ => .undefinedAccess
  else if col.ctype_ = SQL_C_USHORT then
    match cell with
    | some (.u16 v) => .ok v
    | _ => .undefinedAccess
  else if col.ctype_ = SQL_C_LONG ∨ col.ctype_ = SQL_C_SLONG then
    match cell with
    | some (.i32 v) => .ok v
    | _ => .undefinedAccess
  else if col.ctype_ = SQL_C_ULONG then
    match cell with
    | some (.u32 v) => .ok v
    | _ => .undefinedAccess
  else if col.ctype_ = SQL_C_FLOAT ∨ col.ctype_ = SQL_C_DOUBLE then
    .unmodelled
  else if col.ctype_ = SQL_C_SBIGINT then
    match cell with
    | some (.i64 v) => .ok v
    | _ => .undefinedAccess
  else if col.ctype_ = SQL_C_UBIGINT then
    match cell with
    | some (.u64 v) => .ok (toSigned64 v)
    | _ => .undefinedAccess
  else .typeIncompatible

/-- Decimal byte string of an integer, as `snprintf("%jd")` renders it. -/
def intToDecBytes (v : Int) : List Int :=
  (toString v).toList.map fun ch => (ch.toNat : Int)

/-- `get_ref_impl<StringType>` (Nanodbc.cpp:2584-2855), narrow-character
build: dispatch on the bound C type.  Modelled branches: non-blob
`SQL_C_CHAR`/`SQL_C_BINARY` (a `strlen`-bounded copy of the row's bytes)
and `SQL_C_SBIGINT` (a `%jd` `snprintf` into a buffer of `sqlsize_ + 1`
bytes, truncating to `sqlsize_` characters, then trimmed at the first
NUL).  Blob retrieval loops, wide-character conversion, `SQL_C_GUID`,
`SQL_C_LONG`, floating formatting and the locale-dependent `strftime`
date/time branches are left `unmodelled`.  C types absent from the switch
throw `TypeIncompatipleError`. -/
def get_ref_impl_string (st : ResultState) (column : Nat) :
    GetResult (List Int) :=
  let col := st.cols.getD column default
  let cell := readCell col st.rowset_position.toNat
  if col.ctype_ = SQL_C_CHAR ∨ col.ctype_ = SQL_C_BINARY then
    if col.blob_ then .unmodelled
    else
      match cell with
      | some (.chars bs) => .ok (bs.takeWhile fun b => b ≠ 0)
      | _ => .undefinedAccess
  else if col.ctype_ = SQL_C_WCHAR then .unmodelled
  else if col.ctype_ = SQL_C_GUID then .unmodelled
  else if col.ctype_ = SQL_C_LONG then .unmodelled
  else if col.ctype_ = SQL_C_SBIGINT then
    match cell with
    | some (.i64 v) =>
        .ok (((intToDecBytes v).take col.sqlsize_).takeWhile fun b => b ≠ 0)
    | _ => .undefinedAccess
  else if col.ctype_ = SQL_C_FLOAT ∨ col.ctype_ = SQL_C_DOUBLE then .unmodelled
  else if col.ctype_ = SQL_C_DATE ∨ col.ctype_ = SQL_C_TIME ∨
      col.ctype_ = SQL_C_TIMESTAMP then .unmodelled
  else .typeIncompatible

/-! ## `auto_bind()` (Nanodbc.cpp:2334-2507) -/

/-- What `SQLDescribeCol` reports for one column (Nanodbc.cpp:2356-2369). -/
structure ColMeta where
  name : String
  sqltype : Int
  sqlsize : Nat
  scale : Int
deriving Repr, DecidableEq

/-- The classification switch of `auto_bind` (Nanodbc.cpp:2375-2470) for
column ordinal `i`: choose the bound C type, the per-row stride `clen_`,
and the variable-length (`blob_`) flag.  `sizeof` values: `int64_t` = 8,
`double` = 8, `date` = 6, `time` = 6, `timestamp` = 16, `SQLCHAR` = 1,
`SQLWCHAR` = 2; the default branch uses the narrow string C type with a
fixed 128-byte stride. -/
def classifyColumn (i : Nat) (m : ColMeta) : BoundColumn :=
  let is_blob :=
    m.sqlsize = 0 ∧ (m.sqltype = SQL_VARCHAR ∨ m.sqltype = SQL_WVARCHAR)
  let base : BoundColumn :=
    { name_ := m.name, column_ := i, sqltype_ := m.sqltype
    , sqlsize_ := m.sqlsize, scale_ := m.scale
    , ctype_ := 0, clen_ := 0, blob_ := false, cbdata_ := [], pdata_ := none }
  if m.sqltype = SQL_BIT ∨ m.sqltype = SQL_TINYINT ∨ m.sqltype = SQL_SMALLINT ∨
      m.sqltype = SQL_INTEGER ∨ m.sqltype = SQL_BIGINT then
    { base with ctype_ := SQL_C_SBIGINT, clen_ := 8 }
  else if m.sqltype = SQL_DOUBLE ∨ m.sqltype = SQL_FLOAT ∨
      m.sqltype = SQL_DECIMAL ∨ m.sqltype = SQL_REAL ∨
      m.sqltype = SQL_NUMERIC then
    { base with ctype_ := SQL_C_DOUBLE, clen_ := 8 }
  else if m.sqltype = SQL_DATE ∨ m.sqltype = SQL_TYPE_DATE then
    { base with ctype_ := SQL_C_DATE, clen_ := 6 }
  else if m.sqltype = SQL_TIME ∨ m.sqltype = SQL_TYPE_TIME then
    { base with ctype_ := SQL_C_TIME, clen_ := 6 }
  else if m.sqltype = SQL_TIMESTAMP ∨ m.sqltype = SQL_TYPE_TIMESTAMP then
    { base with ctype_ := SQL_C_TIMESTAMP, clen_ := 16 }
  else if m.sqltype = SQL_CHAR ∨ m.sqltype = SQL_VARCHAR then
    if is_blob then { base with ctype_ := SQL_C_CHAR, clen_ := 0, blob_ := true }
    else { base with ctype_ := SQL_C_CHAR, clen_ := (m.sqlsize + 1) * 1 }
  else if m.sqltype = SQL_WCHAR ∨ m.sqltype = SQL_WVARCHAR then
    if is_blob then { base with ctype_ := SQL_C_WCHAR, clen_ := 0, blob_ := true }
    else { base with ctype_ := SQL_C_WCHAR, clen_ := (m.sqlsize + 1) * 2 }
  else if m.sqltype = SQL_LONGVARCHAR then
    { base with ctype_ := SQL_C_CHAR, clen_ := 0, blob_ := true }
  else if m.sqltype = SQL_BINARY ∨ m.sqltype = SQL_VARBINARY ∨
      m.sqltype = SQL_LONGVARBINARY ∨ m.sqltype = SQL_SS_UDT then
    { base with ctype_ := SQL_C_BINARY, clen_ := 0, blob_ := true }
  else
    { base with ctype_ := SQL_C_CHAR, clen_ := 128 }

/-- The allocation/bind loop of `auto_bind` (Nanodbc.cpp:2473-2506): every
column gets an indicator array `new NullType[rowset_size_]` (its
`rowset_size_` fresh slots are uninitialized in C++; the model fills them
with 0, and nothing reads them before a fetch zeroes them); a blob column
binds a null data pointer, a fixed column allocates a data buffer of
`rowset_size_` stride slots (uninitialized, modelled as `RawCell.uninit`). -/
def bindColumn (B : Nat) (c : BoundColumn) : BoundColumn :=
  if c.blob_ then { c with cbdata_ := List.replicate B 0 }
  else { c with
    cbdata_ := List.replicate B 0
    pdata_ := some (List.replicate B RawCell.uninit) }

/-- `auto_bind()` (Nanodbc.cpp:2334-2507): describe and classify every
column in ordinal order, then allocate and bind the arrays.  (The
name → descriptor registrations of the describe loop are recovered from the
result by `registerNames`, which folds in the same ordinal order.) -/
def auto_bind (B : Nat) (metas : List ColMeta) : List BoundColumn :=
  (metas.enum.map fun p => classifyColumn p.1 p.2).map (bindColumn B)

/-! ## Diagnostics: `recent_error` (Nanodbc.cpp:281-359) and
`DatabaseError` (Nanodbc.cpp:406-418) -/

def nulChar : Char := Char.ofNat 0

/-- One driver diagnostic record as `SQLGetDiagRec` reports it: a 5-char
SQLSTATE, a native error code, and the message text (whose reported length
never counts the terminating NUL). -/
structure DiagRecord where
  state : List Char
  native : Int
  message : List Char
deriving Repr, DecidableEq

/-- `std::vector::resize(n)`: truncate or zero-pad to `n` elements. -/
def resizeZ (buf : List Char) (n : Nat) : List Char :=
  buf.take n ++ List.replicate (n - buf.length) nulChar

/-- `SQLGetDiagRec` writing a NUL-terminated string into a fixed buffer:
at most `buf.length - 1` characters, then the terminator; bytes beyond it
keep their previous contents. -/
def writeCStr (buf : List Char) (s : List Char) : List Char :=
  let w := s.take (buf.length - 1)
  w ++ [nulChar] ++ buf.drop (w.length + 1)

/-- The diagnostic-record loop of `recent_error` (Nanodbc.cpp:295-345).
For each record: the length-probe call reports the message length
(`total_bytes`) and (re)writes the SQLSTATE and native-code slots; if
positive, the message vector is resized to `total_bytes + 1`; the data
call then writes the NUL-terminated message, and the WHOLE vector —
terminator included — is appended to the accumulator, preceded by a single
`' '` when the accumulator is nonempty.  `loopAll = false` is the
non-Windows build, which breaks after the first record (the unixODBC
workaround at Nanodbc.cpp:339-344).  A probe past the last record returns
`SQL_NO_DATA` and leaves the state/native slots untouched. -/
def diagLoop (loopAll : Bool) :
    List DiagRecord → List Char → List Char → List Char → Int →
    List Char × List Char × Int
  | [], acc, _, stBuf, nat => (acc, stBuf, nat)
  | r :: rs, acc, buf, stBuf, _ =>
      let stBuf' := writeCStr stBuf (r.state.take 5)
      let buf1 := if 0 < r.message.length then resizeZ buf (r.message.length + 1)
        else buf
      let buf2 := writeCStr buf1 r.message
      let acc' := (if acc.isEmpty then acc else acc ++ [' ']) ++ buf2
      if loopAll then diagLoop loopAll rs acc' buf2 stBuf' r.native
      else (acc', stBuf', r.native)

/-- What `recent_error` hands back: the composed status string it returns,
and the SQLSTATE / native code it stores through its out-parameters. -/
structure RecentError where
  status : List Char
  state : List Char
  native : Int
deriving Repr, DecidableEq

def SQL_MAX_MESSAGE_LENGTH : Nat := 512

/-- `recent_error` (Nanodbc.cpp:281-359), narrow-character build: run the
diagnostic loop starting from a zero-initialized
`std::vector<SQLCHAR>(SQL_MAX_MESSAGE_LENGTH)`; afterwards take the first
5 characters of the SQLSTATE slot, compose `state + ": " + messages`, and
replace every NUL byte of the composition with a space.  (The 6-byte
SQLSTATE stack array is uninitialized in C++; it is modelled as zeroed,
and is fully overwritten before use whenever at least one record exists.) -/
def recent_error (records : List DiagRecord) (loopAll : Bool) : RecentError :=
  let r := diagLoop loopAll records []
    (List.replicate SQL_MAX_MESSAGE_LENGTH nulChar)
    (List.replicate 6 nulChar) 0
  let state := r.2.1.take 5
  let status := (state ++ (": ".toList) ++ r.1).map
    fun c => if c = nulChar then ' ' else c
  ⟨status, state, r.2.2⟩

/-- `DatabaseError::DatabaseError` (Nanodbc.cpp:406-413): one structured
error object whose message is the caller context followed by
`recent_error`'s status string, and which carries the SQLSTATE and native
code that `recent_error` reported. -/
structure DatabaseErrorS where
  message : List Char
  nativeError : Int
  sqlState : List Char
deriving Repr, DecidableEq

def mkDatabaseError (info : List Char) (records : List DiagRecord)
    (loopAll : Bool) : DatabaseErrorS :=
  let r := recent_error records loopAll
  ⟨info ++ r.status, r.native, r.state⟩

/-! ## Trajectory of `first()` followed by repeated `next()`

`afterTrav N B cols i` is the state of a result over `N` rows with rowset
size `B` after `first()` and `i` successful `next()` calls (`i < N`): the
current rowset starts at 1-based row `B * (i / B) + 1`, the last fetch
delivered `min B (N - B * (i / B))` rows, the in-batch offset is `i % B`,
and `1 + i / B` native fetches have been issued. -/

def afterTrav (N B : Nat) (cols : List BoundColumn) (i : Nat) : ResultState :=
  { drv := ⟨N, .onRowset (B * (i / B) + 1)⟩
  , rowset_size := B
  , row_count := min B (N - B * (i / B))
  , rowset_position := ((i % B : Nat) : Int)
  , at_end := false
  , cols := cols.map clearColumn
  , fetchLog := ⟨.first, 0⟩ :: List.replicate (i / B) ⟨.next, 0⟩ }

/-! ## Concrete instances used by counterexamples and witnesses -/

/-- A result over 3 rows, batch size 2, positioned by `first()` + one
`next()`: in-batch offset 1, two rows in the batch, one fetch so far. -/
def midBatchState : ResultState :=
  { drv := ⟨3, .onRowset 1⟩
  , rowset_size := 2
  , row_count := 2
  , rowset_position := 1
  , at_end := false
  , cols := []
  , fetchLog := [⟨.first, 0⟩] }

/-- A fixed (non-blob) `BIGINT` column bound over one row whose data slot
holds 42 and whose indicator slot holds 5. -/
def int64Column : BoundColumn :=
  { name_ := "n", column_ := 0, sqltype_ := SQL_INTEGER, sqlsize_ := 4
  , scale_ := 0, ctype_ := SQL_C_SBIGINT, clen_ := 8, blob_ := false
  , cbdata_ := [5], pdata_ := some [.i64 42] }

/-- A one-column, one-row result over `int64Column`, before any fetch. -/
def int64State : ResultState :=
  { drv := ⟨1, .beforeStart⟩
  , rowset_size := 1
  , row_count := 0
  , rowset_position := 0
  , at_end := false
  , cols := [int64Column]
  , fetchLog := [] }

/-- A bounded `VARCHAR(3)` column bound to a narrow character buffer whose
single row slot holds the text "7" (byte 55, then NULs). -/
def charColumn : BoundColumn :=
  { name_ := "c", column_ := 0, sqltype_ := SQL_VARCHAR, sqlsize_ := 3
  , scale_ := 0, ctype_ := SQL_C_CHAR, clen_ := 4, blob_ := false
  , cbdata_ := [1], pdata_ := some [.chars [55, 0, 0, 0]] }

/-- A one-column result positioned on its single fetched row, over
`charColumn`. -/
def charState : ResultState :=
  { drv := ⟨1, .onRowset 1⟩
  , rowset_size := 1
  , row_count := 1
  , rowset_position := 0
  , at_end := false
  , cols := [charColumn]
  , fetchLog := [⟨.first, 0⟩] }

/-- The same single-row shape with the row's null indicator set. -/
def nullRowState : ResultState :=
  { drv := ⟨1, .onRowset 1⟩
  , rowset_size := 1
  , row_count := 1
  , rowset_position := 0
  , at_end := false
  , cols := [{ int64Column with cbdata_ := [SQL_NULL_DATA] }]
  , fetchLog := [⟨.first, 0⟩] }

/-- Metadata with a duplicated column name: two `INTEGER` columns both
called "x". -/
def dupMetas : List ColMeta :=
  [⟨"x", SQL_INTEGER, 4, 0⟩, ⟨"x", SQL_INTEGER, 4, 0⟩]

/-- A result whose columns come from auto-binding `dupMetas`. -/
def dupState : ResultState := mkResult 1 1 (auto_bind 1 dupMetas)

/-- Two stacked driver diagnostic records. -/
def diagA : DiagRecord := ⟨"ABCDE".toList, 7, "msga".toList⟩
def diagB : DiagRecord := ⟨"FGHIJ".toList, 9, "msgb".toList⟩

/-! ## Helper lemmas -/

theorem clearColumn_idem (c : BoundColumn) :
    clearColumn (clearColumn c) = clearColumn c := by
  unfold clearColumn
  by_cases h : c.blob_ ∧ c.pdata_.isSome <;> simp [h]

theorem clearCols_idem (l : List BoundColumn) :
    (l.map clearColumn).map clearColumn = l.map clearColumn := by
  rw [List.map_map]
  exact List.map_congr_left fun c _ => clearColumn_idem c

theorem before_move_eq (st : ResultState) :
    before_move st = { st with cols := st.cols.map clearColumn } := rfl

theorem clearColumn_cbdata (c : BoundColumn) :
    (clearColumn c).cbdata_ = c.cbdata_.map fun _ => 0 := by
  unfold clearColumn
  dsimp only
  split <;> rfl

theorem clearColumn_blob_pdata (c : BoundColumn) (h : c.blob_ = true) :
    (clearColumn c).pdata_ = none := by
  unfold clearColumn
  dsimp only
  split
  · rfl
  · rename_i hn
    rcases hp : c.pdata_ with _ | v
    · rfl
    · exact absurd ⟨h, by simp [hp]⟩ hn

theorem clearColumn_fixed (c : BoundColumn) (h : c.blob_ = false) :
    (clearColumn c).pdata_ = c.pdata_ ∧ (clearColumn c).clen_ = c.clen_ := by
  unfold clearColumn
  dsimp only
  rw [if_neg (by simp [h])]
  exact ⟨rfl, rfl⟩

theorem clearColumn_meta (c : BoundColumn) :
    (clearColumn c).name_ = c.name_ ∧ (clearColumn c).column_ = c.column_ ∧
    (clearColumn c).sqltype_ = c.sqltype_ ∧
    (clearColumn c).sqlsize_ = c.sqlsize_ ∧
    (clearColumn c).scale_ = c.scale_ ∧ (clearColumn c).ctype_ = c.ctype_ ∧
    (clearColumn c).blob_ = c.blob_ := by
  unfold clearColumn
  dsimp only
  split <;> exact ⟨rfl, rfl, rfl, rfl, rfl, rfl, rfl⟩

/-- `fetch` when the native call delivers `n` rows. -/
theorem fetch_success (st : ResultState) (rows : Int) (o : Orientation)
    (d' : DriverState) (n : Nat)
    (h : fetchScroll st.drv st.rowset_size o rows = (d', .rowsFetched n)) :
    fetch st rows o =
      (⟨d', st.rowset_size, n, st.rowset_position, st.at_end,
        st.cols.map clearColumn, st.fetchLog ++ [⟨o, rows⟩]⟩, true) := by
  simp [fetch, before_move, h]

/-- `fetch` when the native call reports `SQL_NO_DATA`. -/
theorem fetch_noData (st : ResultState) (rows : Int) (o : Orientation)
    (d' : DriverState)
    (h : fetchScroll st.drv st.rowset_size o rows = (d', .noData)) :
    fetch st rows o =
      (⟨d', st.rowset_size, 0, st.rowset_position, true,
        st.cols.map clearColumn, st.fetchLog ++ [⟨o, rows⟩]⟩, false) := by
  simp [fetch, before_move, h]

/-- Once set, no `fetch` clears the `at_end_` flag. -/
theorem fetch_at_end_mono (st : ResultState) (rows : Int) (o : Orientation)
    (h : st.at_end = true) : (fetch st rows o).1.at_end = true := by
  rcases hfs : fetchScroll st.drv st.rowset_size o rows with ⟨d', rc⟩
  cases rc with
  | rowsFetched n => rw [fetch_success st rows o d' n hfs]; exact h
  | noData => rw [fetch_noData st rows o d' hfs]

/-- `first()` on a freshly constructed result over `N ≥ 1` rows. -/
theorem first_mkResult (N B : Nat) (cols : List BoundColumn) (hN : 1 ≤ N) :
    first (mkResult N B cols) = (afterTrav N B cols 0, true) := by
  have hfs : fetchScroll (⟨N, .beforeStart⟩ : DriverState) B .first 0 =
      (⟨N, .onRowset 1⟩, .rowsFetched (min B N)) := by
    simp only [fetchScroll, clampStart]
    rw [if_neg (by omega), if_neg (by omega)]
    norm_num
  have hfs' : fetchScroll ({ mkResult N B cols with rowset_position := 0 } :
        ResultState).drv
      ({ mkResult N B cols with rowset_position := 0 } :
        ResultState).rowset_size .first 0 =
      (⟨N, .onRowset 1⟩, .rowsFetched (min B N)) := hfs
  unfold first
  rw [fetch_success _ _ _ _ _ hfs']
  simp [mkResult, afterTrav]

/-- One `next()` strictly inside the result: from the state after `i`
`next()`s to the state after `i + 1` of them, returning `true`. -/
theorem next_afterTrav (N B : Nat) (cols : List BoundColumn) (i : Nat)
    (hB : 1 ≤ B) (hi : i + 1 < N) :
    next (afterTrav N B cols i) = (afterTrav N B cols (i + 1), true) := by
  have hB0 : 0 < B := hB
  have hqr : B * (i / B) + i % B = i := Nat.div_add_mod i B
  have hr : i % B < B := Nat.mod_lt i hB0
  have hrows : min B (N - B * (i / B)) ≠ 0 := by omega
  by_cases hcase : i % B + 1 < B
  · -- still inside the rowset: only the in-memory offset advances
    have hdiv : (i + 1) / B = i / B := by
      have h1 : i + 1 = (i % B + 1) + B * (i / B) := by omega
      rw [h1, Nat.add_mul_div_left _ _ hB0, Nat.div_eq_of_lt hcase]
      omega
    have hmod : (i + 1) % B = i % B + 1 := by
      have h1 : i + 1 = (i % B + 1) + B * (i / B) := by omega
      rw [h1, Nat.add_mul_mod_self_left, Nat.mod_eq_of_lt hcase]
    have hlt : i % B + 1 < min B (N - B * (i / B)) := by omega
    have hstate : ({ afterTrav N B cols i with
        rowset_position := (afterTrav N B cols i).rowset_position + 1 } :
          ResultState) = afterTrav N B cols (i + 1) := by
      simp only [afterTrav, hdiv, hmod]
      congr 1
    unfold next
    rw [if_pos ⟨by simpa [afterTrav, ResultState.rows] using hrows,
      by simp only [afterTrav]; exact_mod_cast hcase⟩]
    rw [hstate]
    congr 1
    rw [decide_eq_true_eq]
    simp only [afterTrav, ResultState.rows]
    exact_mod_cast hlt
  · -- rowset exhausted: a new SQL_FETCH_NEXT is issued
    have hrB : i % B + 1 = B := by omega
    have hdist : B * (i / B + 1) = B * (i / B) + B := by ring
    have hi1 : i + 1 = B * (i / B + 1) := by omega
    have hdiv : (i + 1) / B = i / B + 1 := by
      rw [hi1, Nat.mul_div_cancel_left _ hB0]
    have hmod : (i + 1) % B = 0 := by
      rw [hi1, Nat.mul_mod_right]
    have hstart : ((B * (i / B) + 1 : Nat) : Int) + (B : Int) =
        ((B * (i / B + 1) + 1 : Nat) : Int) := by push_cast; ring
    have hfs : fetchScroll (⟨N, .onRowset (B * (i / B) + 1)⟩ : DriverState)
        B .next 0 =
        (⟨N, .onRowset (B * (i / B + 1) + 1)⟩,
          .rowsFetched (min B (N - B * (i / B + 1)))) := by
      simp only [fetchScroll, hstart, clampStart]
      rw [if_neg (by omega), if_neg (by omega)]
      rw [Int.toNat_natCast]
      simp
    have hfs' : fetchScroll
        ({ afterTrav N B cols i with rowset_position := 0 } :
          ResultState).drv
        ({ afterTrav N B cols i with rowset_position := 0 } :
          ResultState).rowset_size .next 0 =
        (⟨N, .onRowset (B * (i / B + 1) + 1)⟩,
          .rowsFetched (min B (N - B * (i / B + 1)))) := hfs
    unfold next
    rw [if_neg (by
      rintro ⟨-, hlt⟩
      simp only [afterTrav] at hlt
      have hlt' : i % B + 1 < B := by exact_mod_cast hlt
      omega)]
    rw [fetch_success _ _ _ _ _ hfs']
    congr 1
    simp only [afterTrav, hdiv, hmod]
    congr 1 <;> (first
      | rfl
      | (norm_num; done)
      | exact clearCols_idem cols
      | exact fun c _ => clearColumn_idem c
      | (rw [List.replicate_succ']; simp))

/-- The `next()` one call past the last row returns `false`. -/
theorem next_afterTrav_last (N B i : Nat) (cols : List BoundColumn)
    (hB : 1 ≤ B) (hiN : i + 1 = N) :
    (next (afterTrav N B cols i)).2 = false := by
  have hB0 : 0 < B := hB
  have hqr : B * (i / B) + i % B = i := Nat.div_add_mod i B
  have hr : i % B < B := Nat.mod_lt i hB0
  have hrowsval : N - B * (i / B) = i % B + 1 := by omega
  by_cases hcase : i % B + 1 < B
  · unfold next
    rw [if_pos ⟨by simp only [afterTrav, ResultState.rows]; omega,
      by simp only [afterTrav]; exact_mod_cast hcase⟩]
    simp only [afterTrav, ResultState.rows, hrowsval, decide_eq_false_iff_not]
    intro hlt
    have hlt' : i % B + 1 < min B (i % B + 1) := by exact_mod_cast hlt
    omega
  · have hrB : i % B + 1 = B := by omega
    have hstart : ((B * (i / B) + 1 : Nat) : Int) + (B : Int) =
        ((B * (i / B + 1) + 1 : Nat) : Int) := by push_cast; ring
    have hend : N < B * (i / B + 1) + 1 := by omega
    have hfs : fetchScroll (⟨N, .onRowset (B * (i / B) + 1)⟩ : DriverState)
        B .next 0 = (⟨N, .afterEnd⟩, .noData) := by
      simp only [fetchScroll, hstart, clampStart]
      rw [if_neg (by omega), if_pos (by exact_mod_cast hend)]
    have hfs' : fetchScroll
        ({ afterTrav N B cols i with rowset_position := 0 } :
          ResultState).drv
        ({ afterTrav N B cols i with rowset_position := 0 } :
          ResultState).rowset_size .next 0 = (⟨N, .afterEnd⟩, .noData) := hfs
    unfold next
    rw [if_neg (by
      rintro ⟨-, hlt⟩
      simp only [afterTrav] at hlt
      have hlt' : i % B + 1 < B := by exact_mod_cast hlt
      omega)]
    rw [fetch_noData _ _ _ _ hfs']

/-- Running `k` in-range `next()` calls from the state after `i` of them. -/
theorem runNexts_afterTrav (N B : Nat) (cols : List BoundColumn)
    (hB : 1 ≤ B) :
    ∀ k i, i + k < N →
      runNexts (afterTrav N B cols i) k =
        (afterTrav N B cols (i + k), List.replicate k true) := by
  intro k
  induction k with
  | zero => intro i _; simp [runNexts]
  | succ m ih =>
      intro i hik
      have h1 : i + 1 < N := by omega
      simp only [runNexts, next_afterTrav N B cols i hB h1]
      rw [ih (i + 1) (by omega), show i + 1 + m = i + (m + 1) by omega]
      simp [List.replicate_succ]

theorem runNexts_one (st : ResultState) :
    runNexts st 1 = ((next st).1, [(next st).2]) := by
  simp [runNexts]

/-- The typed getters address absolute row `i` (0-indexed) after `first()`
plus `i` in-range `next()` calls. -/
theorem currentRow0_afterTrav (N B : Nat) (cols : List BoundColumn)
    (i : Nat) : currentRow0 (afterTrav N B cols i) = some (i : Int) := by
  have hqr : B * (i / B) + i % B = i := Nat.div_add_mod i B
  simp only [currentRow0, afterTrav]
  have h : ((B * (i / B) + 1 : Nat) : Int) - 1 + ((i % B : Nat) : Int) =
      (i : Int) := by omega
  rw [h]

theorem runNexts_append (st : ResultState) (a b : Nat) :
    runNexts st (a + b) =
      ((runNexts (runNexts st a).1 b).1,
        (runNexts st a).2 ++ (runNexts (runNexts st a).1 b).2) := by
  induction a generalizing st with
  | zero => simp [runNexts]
  | succ k ih =>
      have : k + 1 + b = (k + b) + 1 := by omega
      rw [this]
      simp only [runNexts, ih (next st).1]
      simp

/-- `std::map::operator[]` semantics of `mapInsert` under lookup. -/
theorem lookup_mapInsert (m : List (String × Nat)) (k k' : String) (v : Nat) :
    List.lookup k' (mapInsert m k v) =
      if k' = k then some v else List.lookup k' m := by
  induction m with
  | nil =>
      by_cases h : k' = k
      · simp [mapInsert, List.lookup, h]
      · have hb : (k' == k) = false := beq_eq_false_iff_ne.mpr h
        simp [mapInsert, List.lookup, hb, h]
  | cons p rest ih =>
      obtain ⟨k0, v0⟩ := p
      simp only [mapInsert]
      by_cases h0 : k0 = k
      · subst h0
        rw [if_pos rfl]
        by_cases h : k' = k0
        · have hb : (k' == k0) = true := beq_iff_eq.mpr h
          simp [List.lookup, hb, h]
        · have hb : (k' == k0) = false := beq_eq_false_iff_ne.mpr h
          simp [List.lookup, hb, h]
      · rw [if_neg h0]
        by_cases h : k' = k0
        · subst h
          simp [List.lookup, h0]
        · have hb : (k' == k0) = false := beq_eq_false_iff_ne.mpr h
          simp [List.lookup, hb, ih]

theorem registerNames_concat (cols : List BoundColumn) (c : BoundColumn) :
    registerNames (cols ++ [c]) =
      mapInsert (registerNames cols) c.name_ c.column_ := by
  simp [registerNames, List.foldl_append]

/-- The registered name map resolves a name to the LAST column carrying it
(later `operator[]` assignments overwrite earlier ones). -/
theorem lookup_registerNames (cols : List BoundColumn) (name : String) :
    List.lookup name (registerNames cols) =
      ((cols.filter fun c => c.name_ == name).getLast?).map (·.column_) := by
  induction cols using List.reverseRecOn with
  | nil => simp [registerNames, List.lookup]
  | append_singleton l c ih =>
      rw [registerNames_concat, lookup_mapInsert]
      by_cases h : name = c.name_
      · rw [if_pos h]
        have hc : (c.name_ == name) = true := by simp [h]
        simp [List.filter_append, hc, List.getLast?_concat]
      · rw [if_neg h]
        have hc : (c.name_ == name) = false := by
          simp [Ne.symm h]
        simp [List.filter_append, hc, ih]

/-- The buffer written by the data call of `SQLGetDiagRec` after the resize
holds exactly the message and its terminator. -/
theorem write_resize (buf msg : List Char) (hm : msg ≠ []) :
    writeCStr (resizeZ buf (msg.length + 1)) msg = msg ++ [nulChar] := by
  have hlen : (resizeZ buf (msg.length + 1)).length = msg.length + 1 := by
    simp [resizeZ]
    omega
  unfold writeCStr
  rw [hlen]
  simp [List.drop_eq_nil_of_le, hlen]

/-- Writing a 5-character SQLSTATE into the 6-byte state slot. -/
theorem write_state (stBuf s : List Char) (hb : stBuf.length = 6)
    (hs : s.length = 5) :
    writeCStr stBuf (s.take 5) = s ++ [nulChar] := by
  have h1 : s.take 5 = s := List.take_of_length_le (by omega)
  have h2 : stBuf.drop 6 = [] := List.drop_eq_nil_of_le (by omega)
  unfold writeCStr
  dsimp only
  rw [hb, show (6 : Nat) - 1 = 5 by norm_num, h1, h1, hs,
    show (5 : Nat) + 1 = 6 by norm_num, h2]
  simp

/-- The diagnostic loop (Windows build, all records) with a nonempty
accumulator: appends each remaining record's message plus terminator,
preceded by one space, and reports the last record's SQLSTATE and native
code. -/
theorem diagLoop_spec (rs : List DiagRecord) :
    ∀ (acc buf stBuf : List Char) (nat : Int), acc ≠ [] →
      (∀ r ∈ rs, r.message ≠ []) → (∀ r ∈ rs, r.state.length = 5) →
      stBuf.length = 6 →
      diagLoop true rs acc buf stBuf nat =
        (acc ++ (rs.map fun r => ' ' :: (r.message ++ [nulChar])).join,
          match rs.getLast? with
          | none => stBuf
          | some r => r.state ++ [nulChar],
          match rs.getLast? with
          | none => nat
          | some r => r.native) := by
  induction rs with
  | nil => intro acc buf stBuf nat _ _ _ _; simp [diagLoop]
  | cons r rest ih =>
      intro acc buf stBuf nat hacc hmsg hst hb
      have hm : r.message ≠ [] := hmsg r (by simp)
      have hs5 : r.state.length = 5 := hst r (by simp)
      have hres : 0 < r.message.length := List.length_pos.mpr hm
      have hia : acc.isEmpty = false := by
        cases acc with
        | nil => exact absurd rfl hacc
        | cons a l => rfl
      have hif : (if acc.isEmpty = true then acc else acc ++ [' ']) =
          acc ++ [' '] := by rw [hia]; simp
      unfold diagLoop
      dsimp only
      rw [if_pos hres, write_resize buf r.message hm,
        write_state stBuf r.state hb hs5, hif]
      rw [ih (acc ++ [' '] ++ (r.message ++ [nulChar])) (r.message ++ [nulChar])
        (r.state ++ [nulChar]) r.native (by simp)
        (fun x hx => hmsg x (by simp [hx])) (fun x hx => hst x (by simp [hx]))
        (by simp [hs5])]
      cases rest with
      | nil => simp [diagLoop]
      | cons r2 rest2 =>
          have hsome : (r2 :: rest2).getLast? =
              some ((r2 :: rest2).getLast (by simp)) :=
            List.getLast?_eq_getLast _ _
          rw [hsome]
          simp [List.getLast?_cons_cons, hsome]

/-- `SQLFetchScroll` only repositions the cursor; the result-set row count
it scrolls over is untouched. -/
theorem fetchScroll_numRows (d : DriverState) (B : Nat) (o : Orientation)
    (off : Int) : (fetchScroll d B o off).1.numRows = d.numRows := by
  unfold fetchScroll
  dsimp only
  split <;> rfl

/-- `fetch` never changes the in-batch offset itself and always records
exactly one native fetch call. -/
theorem fetch_pos_log (st : ResultState) (rows : Int) (o : Orientation) :
    (fetch st rows o).1.rowset_position = st.rowset_position ∧
    (fetch st rows o).1.fetchLog = st.fetchLog ++ [⟨o, rows⟩] := by
  rcases h : fetchScroll st.drv st.rowset_size o rows with ⟨d', rc⟩
  cases rc with
  | rowsFetched n => rw [fetch_success _ _ _ _ _ h]; exact ⟨rfl, rfl⟩
  | noData => rw [fetch_noData _ _ _ _ h]; exact ⟨rfl, rfl⟩

/-- `isNull` raises `IndexRangeError` whenever the offset is at or past the
fetched row count, for every ordinal. -/
theorem isNull_indexRange (st : ResultState) (c : Nat)
    (h : (st.rows : Int) ≤ st.rowset_position) :
    isNull st c = .indexRange := by
  unfold isNull
  by_cases hb : st.cols.length ≤ c <;> simp [hb, h]

/-! ## The claims -/

/-- C1: with batch (rowset) size `B` and `N > B` rows, after `first()` the
rows 0..B-1 are served from the in-memory batch with exactly the one
native fetch of `first()` in the log; the `next()` advancing to row `B`
(the (B+1)-th row) issues exactly one additional native fetch; and
`skip(B)` invoked at row 0 returns `true` and positions the cursor exactly
on row `B` (0-indexed), also with exactly one additional native fetch. -/
theorem C1_batch_boundary (N B : Nat) (cols : List BoundColumn)
    (hB : 1 ≤ B) (hBN : B < N) :
    (first (mkResult N B cols)).2 = true ∧
    (first (mkResult N B cols)).1.fetchLog.length = 1 ∧
    (∀ i, i < B →
      (runNexts (first (mkResult N B cols)).1 i).1.fetchLog.length = 1 ∧
      currentRow0 (runNexts (first (mkResult N B cols)).1 i).1 = some i) ∧
    ((runNexts (first (mkResult N B cols)).1 B).1.fetchLog.length = 2 ∧
      currentRow0 (runNexts (first (mkResult N B cols)).1 B).1 = some B) ∧
    ((skip (first (mkResult N B cols)).1 B).2 = true ∧
      currentRow0 (skip (first (mkResult N B cols)).1 B).1 = some B ∧
      (skip (first (mkResult N B cols)).1 B).1.fetchLog.length = 2) := by
  have hN : 1 ≤ N := by omega
  have h0 := first_mkResult N B cols hN
  have h00 : afterTrav N B cols 0 =
      ⟨⟨N, .onRowset 1⟩, B, min B N, 0, false, cols.map clearColumn,
        [⟨.first, 0⟩]⟩ := by
    simp [afterTrav]
  refine ⟨by rw [h0], by rw [h0]; simp [afterTrav], ?_, ?_, ?_⟩
  · intro i hi
    rw [h0]
    dsimp only
    rw [runNexts_afterTrav N B cols hB i 0 (by omega), Nat.zero_add]
    dsimp only
    exact ⟨by simp [afterTrav, Nat.div_eq_of_lt hi],
      currentRow0_afterTrav N B cols i⟩
  · rw [h0]
    dsimp only
    rw [runNexts_afterTrav N B cols hB B 0 (by omega), Nat.zero_add]
    dsimp only
    exact ⟨by simp [afterTrav, Nat.div_self (by omega : 0 < B)],
      currentRow0_afterTrav N B cols B⟩
  · rw [h0]
    dsimp only
    rw [h00]
    have h1 : ((1 : Nat) : Int) + (B : Int) = ((B + 1 : Nat) : Int) := by
      push_cast
      ring
    have hfsR : fetchScroll (⟨N, .onRowset 1⟩ : DriverState) B
        .relative (B : Int) =
        (⟨N, .onRowset (B + 1)⟩, .rowsFetched (min B (N - B))) := by
      simp only [fetchScroll, clampStart, h1]
      rw [if_neg (by omega), if_neg (by omega), Int.toNat_natCast]
      simp
    have hfs' : fetchScroll
        ({(⟨⟨N, .onRowset 1⟩, B, min B N, 0, false, cols.map clearColumn,
            [⟨.first, 0⟩]⟩ : ResultState) with rowset_position := 0}).drv
        ({(⟨⟨N, .onRowset 1⟩, B, min B N, 0, false, cols.map clearColumn,
            [⟨.first, 0⟩]⟩ : ResultState) with
          rowset_position := 0}).rowset_size .relative (B : Int) =
        (⟨N, .onRowset (B + 1)⟩, .rowsFetched (min B (N - B))) := hfsR
    unfold skip
    rw [if_neg (by
      rintro ⟨-, hlt⟩
      dsimp only [ResultState.rows] at hlt
      omega)]
    rw [fetch_success _ _ _ _ _ hfs']
    refine ⟨rfl, ?_, ?_⟩
    · simp only [currentRow0]
      rw [show ((B + 1 : Nat) : Int) - 1 + (0 : Int) = (B : Int) by omega]
      rfl
    · simp [clearCols_idem]

/-- C1 witness: at `N = 3`, `B = 2`, the batch-boundary property holds. -/
theorem C1_batch_boundary_witness :
    (first (mkResult 3 2 [])).2 = true ∧
    (first (mkResult 3 2 [])).1.fetchLog.length = 1 ∧
    (∀ i, i < 2 →
      (runNexts (first (mkResult 3 2 [])).1 i).1.fetchLog.length = 1 ∧
      currentRow0 (runNexts (first (mkResult 3 2 [])).1 i).1 = some i) ∧
    ((runNexts (first (mkResult 3 2 [])).1 2).1.fetchLog.length = 2 ∧
      currentRow0 (runNexts (first (mkResult 3 2 [])).1 2).1 = some 2) ∧
    ((skip (first (mkResult 3 2 [])).1 2).2 = true ∧
      currentRow0 (skip (first (mkResult 3 2 [])).1 2).1 = some 2 ∧
      (skip (first (mkResult 3 2 [])).1 2).1.fetchLog.length = 2) :=
  C1_batch_boundary 3 2 [] (by norm_num) (by norm_num)

/-- C3 counterexample.  First part: a result over 1 row (batch 1) driven
to its end (`at_end_` set); a subsequent `first()` succeeds — a new
positioning fetch repositions the cursor on row 1 — yet `atEnd()` still
returns `true`: the at-end state is NOT reset by a new positioning call.
Second part: over 3 rows with batch 2, after `first()` and two successful
`next()` calls the cursor sits on the valid last row (row 2, 0-indexed)
and no call past the last row has happened, yet `atEnd()` already returns
`true` (the `pos - 1 > rows()` heuristic fires): `atEnd()` does not become
true "exactly one call past the last row". -/
theorem C3_counterexample :
    ((first (runNexts (first (mkResult 1 1 [])).1 1).1).2 = true ∧
      atEnd (first (runNexts (first (mkResult 1 1 [])).1 1).1).1 = true) ∧
    (currentRow0 (runNexts (first (mkResult 3 2 [])).1 2).1 = some 2 ∧
      (runNexts (first (mkResult 3 2 [])).1 2).2 = [true, true] ∧
      atEnd (runNexts (first (mkResult 3 2 [])).1 2).1 = true) := by decide

/-- C3 amended: after `first()`, repeated `next()` calls visit every row
exactly once in native fetch order — the cursor sits on row `i` after `i`
calls, each returning `true`, and the call one past the last row returns
`false`.  The at-end flag, once set by a no-more-data fetch, is permanent:
no navigation call (`first`, `last`, `next`, `prior`, `move`, `skip`)
resets it, and `atEnd()` keeps returning `true` — the claimed reset by a
new positioning call does not exist. -/
theorem C3_cursor_traversal (N B : Nat) (cols : List BoundColumn)
    (hB : 1 ≤ B) (hN : 1 ≤ N) :
    ((first (mkResult N B cols)).2 = true) ∧
    (∀ i, i < N →
      currentRow0 (runNexts (first (mkResult N B cols)).1 i).1 = some i) ∧
    ((runNexts (first (mkResult N B cols)).1 N).2 =
      List.replicate (N - 1) true ++ [false]) ∧
    (∀ st : ResultState, st.at_end = true →
      atEnd st = true ∧ (first st).1.at_end = true ∧
      (last st).1.at_end = true ∧ (next st).1.at_end = true ∧
      (prior st).1.at_end = true ∧ (∀ r, (move st r).1.at_end = true) ∧
      (∀ n, (skip st n).1.at_end = true)) := by
  obtain ⟨M, rfl⟩ : ∃ M, N = M + 1 := ⟨N - 1, by omega⟩
  have h0 := first_mkResult (M + 1) B cols hN
  refine ⟨by rw [h0], ?_, ?_, ?_⟩
  · intro i hi
    rw [h0]
    dsimp only
    rw [runNexts_afterTrav (M + 1) B cols hB i 0 (by omega), Nat.zero_add]
    dsimp only
    exact currentRow0_afterTrav (M + 1) B cols i
  · rw [h0]
    dsimp only
    rw [runNexts_append _ M 1,
      runNexts_afterTrav (M + 1) B cols hB M 0 (by omega), Nat.zero_add]
    dsimp only
    rw [runNexts_one, next_afterTrav_last (M + 1) B M cols hB rfl]
    simp
  · intro st hst
    refine ⟨by unfold atEnd; rw [if_pos hst], ?_, ?_, ?_, ?_, fun r => ?_,
      fun n => ?_⟩
    · unfold first
      exact fetch_at_end_mono _ 0 .first hst
    · unfold last
      exact fetch_at_end_mono _ 0 .last hst
    · unfold next
      split
      · exact hst
      · exact fetch_at_end_mono _ 0 .next hst
    · unfold prior
      split
      · exact hst
      · exact fetch_at_end_mono _ 0 .prior hst
    · unfold move
      exact fetch_at_end_mono _ r .absolute hst
    · unfold skip
      split
      · exact hst
      · exact fetch_at_end_mono _ n .relative hst

/-- C3 witness: traversal and permanence of the at-end flag at `N = 2`,
`B = 1`. -/
theorem C3_cursor_traversal_witness :
    ((first (mkResult 2 1 [])).2 = true) ∧
    (∀ i, i < 2 →
      currentRow0 (runNexts (first (mkResult 2 1 [])).1 i).1 = some i) ∧
    ((runNexts (first (mkResult 2 1 [])).1 2).2 =
      List.replicate (2 - 1) true ++ [false]) ∧
    (∀ st : ResultState, st.at_end = true →
      atEnd st = true ∧ (first st).1.at_end = true ∧
      (last st).1.at_end = true ∧ (next st).1.at_end = true ∧
      (prior st).1.at_end = true ∧ (∀ r, (move st r).1.at_end = true) ∧
      (∀ n, (skip st n).1.at_end = true)) :=
  C3_cursor_traversal 2 1 [] (by norm_num) (by norm_num)

/-- C2: for every bound column and every current row whose null indicator
is set, `get<T>(ordinal)` and `getRef<T>(ordinal)` raise `NullAccessError`,
and the fallback overloads return exactly the supplied fallback.  The
statement quantifies over an arbitrary `get_ref_impl` instantiation and an
arbitrary state (hence arbitrary data-buffer contents), so the outcome
provably never depends on the column's data buffer. -/
theorem C2_null_handling {α : Type} (impl : ResultState → Nat → GetResult α)
    (st : ResultState) (c : Nat) (fb : α)
    (hc : c < st.cols.length)
    (hpos : st.rowset_position < (st.rows : Int))
    (hnull : (st.cols.getD c default).cbdata_.getD st.rowset_position.toNat 0 =
      SQL_NULL_DATA) :
    getWith impl st c = .nullAccess ∧
    getRefWith impl st c = .nullAccess ∧
    getFallbackWith impl st c fb = .ok fb ∧
    getRefFallbackWith impl st c fb = .ok fb := by
  have hnb : ¬st.cols.length ≤ c := by omega
  have hisnull : isNull st c = .ok true := by
    unfold isNull
    dsimp only
    rw [if_neg hnb, if_neg (not_le.mpr hpos), hnull]
    simp
  unfold getWith getFallbackWith getRefWith getRefFallbackWith
  simp [hisnull, if_neg hnb]

/-- C2 witness: on the one-row null cell, `get`/`getRef` raise null-access
and the fallback overloads return the fallback 99. -/
theorem C2_null_handling_witness :
    getWith get_ref_impl_int64 nullRowState 0 = .nullAccess ∧
    getRefWith get_ref_impl_int64 nullRowState 0 = .nullAccess ∧
    getFallbackWith get_ref_impl_int64 nullRowState 0 99 = .ok 99 ∧
    getRefFallbackWith get_ref_impl_int64 nullRowState 0 99 = .ok 99 :=
  C2_null_handling get_ref_impl_int64 nullRowState 0 99 (by decide) (by decide)
    (by decide)

/-- C4 counterexample: `prior()` invoked mid-batch (offset 1, 2 rows
delivered) returns `true` after only decrementing the in-memory offset —
the fetch log is unchanged, so no native fetch with `SQL_FETCH_PRIOR`
orientation is issued, contradicting the claim that prior always fetches. -/
theorem C4_counterexample :
    prior midBatchState = ({ midBatchState with rowset_position := 0 }, true) ∧
    (prior midBatchState).1.fetchLog = [⟨.first, 0⟩] ∧
    midBatchState.fetchLog = [⟨.first, 0⟩] := by decide

/-- C4 amended: `first`, `last` and `move(row)` always reset the in-batch
offset to 0 and issue exactly one native fetch with the matching
orientation; `prior` does so (with `SQL_FETCH_PRIOR`) only when the last
fetch delivered no rows or the offset is already 0 — otherwise it merely
decrements the in-memory offset and returns `true` without a native call. -/
theorem C4_navigation_fetches (st : ResultState) (row : Int) :
    ((first st).1.rowset_position = 0 ∧
      (first st).1.fetchLog = st.fetchLog ++ [⟨.first, 0⟩]) ∧
    ((last st).1.rowset_position = 0 ∧
      (last st).1.fetchLog = st.fetchLog ++ [⟨.last, 0⟩]) ∧
    ((move st row).1.rowset_position = 0 ∧
      (move st row).1.fetchLog = st.fetchLog ++ [⟨.absolute, row⟩]) ∧
    (st.rows ≠ 0 ∧ 1 ≤ st.rowset_position →
      prior st = ({ st with rowset_position := st.rowset_position - 1 }, true)) ∧
    (st.rows = 0 ∨ st.rowset_position < 1 →
      (prior st).1.rowset_position = 0 ∧
      (prior st).1.fetchLog = st.fetchLog ++ [⟨.prior, 0⟩]) := by
  refine ⟨fetch_pos_log _ 0 .first, fetch_pos_log _ 0 .last,
    fetch_pos_log _ row .absolute, ?_, ?_⟩
  · rintro ⟨h1, h2⟩
    unfold prior
    rw [if_pos ⟨h1, by omega⟩]
  · intro h
    unfold prior
    rw [if_neg (by
      rintro ⟨h1, h2⟩
      rcases h with h | h
      · exact h1 h
      · omega)]
    exact fetch_pos_log _ 0 .prior

/-- C4 witness: at the mid-batch state, `first` fetches with the first
orientation, and `prior` takes the in-memory path. -/
theorem C4_navigation_fetches_witness :
    ((first midBatchState).1.rowset_position = 0 ∧
      (first midBatchState).1.fetchLog =
        midBatchState.fetchLog ++ [⟨.first, 0⟩]) ∧
    ((last midBatchState).1.rowset_position = 0 ∧
      (last midBatchState).1.fetchLog =
        midBatchState.fetchLog ++ [⟨.last, 0⟩]) ∧
    ((move midBatchState 2).1.rowset_position = 0 ∧
      (move midBatchState 2).1.fetchLog =
        midBatchState.fetchLog ++ [⟨.absolute, 2⟩]) ∧
    (midBatchState.rows ≠ 0 ∧ 1 ≤ midBatchState.rowset_position →
      prior midBatchState =
        ({ midBatchState with
            rowset_position := midBatchState.rowset_position - 1 }, true)) ∧
    (midBatchState.rows = 0 ∨ midBatchState.rowset_position < 1 →
      (prior midBatchState).1.rowset_position = 0 ∧
      (prior midBatchState).1.fetchLog =
        midBatchState.fetchLog ++ [⟨.prior, 0⟩]) :=
  C4_navigation_fetches midBatchState 2

/-- C5 counterexample: after a fetch (`first()` here), the fixed column's
data buffer still holds its old value 42 — data buffers are NOT cleared to
a null-equivalent zero; only the indicator array is zeroed. -/
theorem C5_counterexample :
    ((first int64State).1.cols.getD 0 default).pdata_ = some [.i64 42] ∧
    RawCell.i64 42 ≠ RawCell.i64 0 ∧
    ((first int64State).1.cols.getD 0 default).cbdata_ = [0] := by decide

/-- C5 amended: every fetch zeroes every column's null/length indicator
slots and releases a blob column's previously allocated retrieval buffer,
but leaves a fixed column's data buffer untouched; column metadata, the
rowset size and the in-batch offset are unchanged by the buffer clearing. -/
theorem C5_fetch_clears (st : ResultState) (rows : Int) (o : Orientation) :
    ((fetch st rows o).1.cols = st.cols.map clearColumn) ∧
    (∀ c : BoundColumn, (clearColumn c).cbdata_ = c.cbdata_.map fun _ => 0) ∧
    (∀ c : BoundColumn, c.blob_ = true → (clearColumn c).pdata_ = none) ∧
    (∀ c : BoundColumn, c.blob_ = false →
      (clearColumn c).pdata_ = c.pdata_ ∧ (clearColumn c).clen_ = c.clen_) ∧
    (∀ c : BoundColumn, (clearColumn c).name_ = c.name_ ∧
      (clearColumn c).column_ = c.column_ ∧
      (clearColumn c).sqltype_ = c.sqltype_ ∧
      (clearColumn c).sqlsize_ = c.sqlsize_ ∧
      (clearColumn c).scale_ = c.scale_ ∧
      (clearColumn c).ctype_ = c.ctype_ ∧
      (clearColumn c).blob_ = c.blob_) ∧
    ((fetch st rows o).1.rowset_size = st.rowset_size) ∧
    ((fetch st rows o).1.rowset_position = st.rowset_position) ∧
    ((fetch st rows o).1.drv.numRows = st.drv.numRows) := by
  have hnum := fetchScroll_numRows st.drv st.rowset_size o rows
  rcases hfs : fetchScroll st.drv st.rowset_size o rows with ⟨d', rc⟩
  rw [hfs] at hnum
  cases rc with
  | rowsFetched n =>
      rw [fetch_success _ _ _ _ _ hfs]
      exact ⟨rfl, clearColumn_cbdata, clearColumn_blob_pdata,
        clearColumn_fixed, clearColumn_meta, rfl, rfl, hnum⟩
  | noData =>
      rw [fetch_noData _ _ _ _ hfs]
      exact ⟨rfl, clearColumn_cbdata, clearColumn_blob_pdata,
        clearColumn_fixed, clearColumn_meta, rfl, rfl, hnum⟩

/-- C5 witness: the clearing/frame property instantiated at the concrete
one-column state and a `SQL_FETCH_FIRST` fetch. -/
theorem C5_fetch_clears_witness :
    ((fetch int64State 0 .first).1.cols = int64State.cols.map clearColumn) ∧
    (∀ c : BoundColumn, (clearColumn c).cbdata_ = c.cbdata_.map fun _ => 0) ∧
    (∀ c : BoundColumn, c.blob_ = true → (clearColumn c).pdata_ = none) ∧
    (∀ c : BoundColumn, c.blob_ = false →
      (clearColumn c).pdata_ = c.pdata_ ∧ (clearColumn c).clen_ = c.clen_) ∧
    (∀ c : BoundColumn, (clearColumn c).name_ = c.name_ ∧
      (clearColumn c).column_ = c.column_ ∧
      (clearColumn c).sqltype_ = c.sqltype_ ∧
      (clearColumn c).sqlsize_ = c.sqlsize_ ∧
      (clearColumn c).scale_ = c.scale_ ∧
      (clearColumn c).ctype_ = c.ctype_ ∧
      (clearColumn c).blob_ = c.blob_) ∧
    ((fetch int64State 0 .first).1.rowset_size = int64State.rowset_size) ∧
    ((fetch int64State 0 .first).1.rowset_position =
      int64State.rowset_position) ∧
    ((fetch int64State 0 .first).1.drv.numRows = int64State.drv.numRows) :=
  C5_fetch_clears int64State 0 .first

/-- C6 counterexample: with requested batch size 1, `auto_bind` allocates
the column's indicator array with exactly 1 entry, not the claimed
`max(batch_size, 8) = 8` minimum. -/
theorem C6_counterexample :
    ((auto_bind 1 [⟨"a", SQL_INTEGER, 4, 0⟩]).getD 0 default).cbdata_.length
        = 1 ∧
    ¬(max 1 8 ≤
      ((auto_bind 1 [⟨"a", SQL_INTEGER, 4, 0⟩]).getD 0 default).cbdata_.length)
    := by decide

/-- C6 amended: `auto_bind` allocates every column's null/length indicator
array with exactly `batch_size` entries (`new NullType[rowset_size_]`) —
there is no minimum of 8. -/
theorem C6_indicator_size (B : Nat) (metas : List ColMeta) :
    ∀ col ∈ auto_bind B metas, col.cbdata_.length = B := by
  intro col hcol
  unfold auto_bind at hcol
  rw [List.mem_map] at hcol
  obtain ⟨c, _, rfl⟩ := hcol
  unfold bindColumn
  split <;> simp

/-- C6 witness: auto-binding one INTEGER column with batch size 2 yields a
2-entry indicator array. -/
theorem C6_indicator_size_witness :
    ((auto_bind 2 [⟨"a", SQL_INTEGER, 4, 0⟩]).getD 0 default).cbdata_.length
      = 2 :=
  C6_indicator_size 2 [⟨"a", SQL_INTEGER, 4, 0⟩]
    ((auto_bind 2 [⟨"a", SQL_INTEGER, 4, 0⟩]).getD 0 default) (by decide)

/-- C7 counterexample: with two columns both named "x" (ordinals 0 and 1),
name lookup resolves to ordinal 1 — the LAST occurrence — because
`bound_columns_by_name_[name] = &col` overwrites the earlier entry; the
claim's "first occurrence" (ordinal 0) is wrong. -/
theorem C7_counterexample :
    columnByName dupState "x" = .ok 1 ∧
    (GetResult.ok 1 : GetResult Nat) ≠ .ok 0 := by decide

/-- C7 amended: duplicate column names are not an error, but name-based
lookup resolves to the LAST column with that name in ordinal order (the
`std::map` assignment in the describe loop overwrites earlier ordinals);
`auto_bind` assigns names from metadata and ordinals `0, 1, …` in order. -/
theorem C7_name_lookup_last_wins (st : ResultState) (name : String)
    (B : Nat) (metas : List ColMeta) :
    (columnByName st name =
      match (st.cols.filter fun c => c.name_ == name).getLast? with
      | none => .indexRange
      | some c => .ok c.column_) ∧
    ((auto_bind B metas).map (fun c => (c.name_, c.column_)) =
      metas.enum.map fun p => ((p.2).name, p.1)) := by
  constructor
  · unfold columnByName
    rw [lookup_registerNames]
    rcases hl : (st.cols.filter fun c => c.name_ == name).getLast? with _ | c <;>
      rw [hl] <;> rfl
  · unfold auto_bind
    rw [List.map_map, List.map_map]
    refine List.map_congr_left fun p _ => ?_
    obtain ⟨i, m⟩ := p
    have h1 : ∀ c : BoundColumn, (bindColumn B c).name_ = c.name_ ∧
        (bindColumn B c).column_ = c.column_ := by
      intro c
      unfold bindColumn
      split <;> exact ⟨rfl, rfl⟩
    have h2 : (classifyColumn i m).name_ = m.name ∧
        (classifyColumn i m).column_ = i := by
      unfold classifyColumn
      dsimp only
      split_ifs <;> exact ⟨rfl, rfl⟩
    simp [Function.comp, (h1 _).1, (h1 _).2, h2.1, h2.2]

/-- C7 witness: at the duplicated-name binding, lookup yields the last
"x" column (ordinal 1), and the bound name/ordinal layout follows the
metadata order. -/
theorem C7_name_lookup_last_wins_witness :
    (columnByName dupState "x" =
      match (dupState.cols.filter fun c => c.name_ == "x").getLast? with
      | none => .indexRange
      | some c => .ok c.column_) ∧
    ((auto_bind 1 dupMetas).map (fun c => (c.name_, c.column_)) =
      dupMetas.enum.map fun p => ((p.2).name, p.1)) :=
  C7_name_lookup_last_wins dupState "x" 1 dupMetas

/-- C10: whenever the in-batch offset is at or past the delivered row
count — in particular on a fresh `Result` whose rows-fetched counter is
still 0 — every `isNull`, `get` and `getRef` call, with or without
fallback, by ordinal or by name, for every ordinal, raises
`IndexRangeError`; the outcome is independent of every buffer (the state
and the `get_ref_impl` instantiation are universally quantified, and no
data path is reached). -/
theorem C10_unpositioned_access {α : Type}
    (impl : ResultState → Nat → GetResult α) (st : ResultState) (c : Nat)
    (fb : α) (name : String)
    (h : (st.rows : Int) ≤ st.rowset_position) :
    isNull st c = .indexRange ∧
    getRefWith impl st c = .indexRange ∧
    getRefFallbackWith impl st c fb = .indexRange ∧
    getWith impl st c = .indexRange ∧
    getFallbackWith impl st c fb = .indexRange ∧
    getRefByNameWith impl st name = .indexRange ∧
    getRefByNameFallbackWith impl st name fb = .indexRange := by
  have hn : ∀ c' : Nat, isNull st c' = .indexRange := fun c' =>
    isNull_indexRange st c' h
  unfold getWith getFallbackWith getRefWith getRefFallbackWith
    getRefByNameWith getRefByNameFallbackWith
  refine ⟨hn c, ?_, ?_, ?_, ?_, ?_, ?_⟩
  · by_cases hb : st.cols.length ≤ c <;> simp [hb, hn]
  · by_cases hb : st.cols.length ≤ c <;> simp [hb, hn]
  · by_cases hb : st.cols.length ≤ c <;> simp [hb, hn]
  · by_cases hb : st.cols.length ≤ c <;> simp [hb, hn]
  · cases hc : columnByName st name <;> simp [hn]
  · cases hc : columnByName st name <;> simp [hn]

/-- C8 counterexample: a column bound to the narrow character C type
(`SQL_C_CHAR`, here a `VARCHAR(3)` holding "7") does NOT raise a
type-incompatibility error on numeric extraction: `get<int64_t>` returns
the first byte of the character buffer (55, the code of '7'), because the
generic `get_ref_impl` has a `SQL_C_CHAR` case that dereferences the
buffer as a single `char`. -/
theorem C8_counterexample :
    getWith get_ref_impl_int64 charState 0 = .ok 55 ∧
    getWith get_ref_impl_int64 charState 0 ≠ .typeIncompatible := by decide

/-- C8 amended: on a non-null current cell, numeric (`int64_t`) extraction
from a WIDE-character-bound column raises `TypeIncompatipleError` (the C
type is absent from the numeric dispatch switch), but from a
NARROW-character-bound column it instead yields the buffer's first byte
cast to the target; the reverse direction stays supported: a
`SQL_C_SBIGINT`-bound column extracts into a string target as the decimal
rendering of the stored value (truncated to the column's declared size). -/
theorem C8_numeric_char_dispatch (st : ResultState) (c : Nat)
    (hc : c < st.cols.length)
    (hpos : st.rowset_position < (st.rows : Int))
    (hnotnull : ¬((st.cols.getD c default).cbdata_.getD
      st.rowset_position.toNat 0 = SQL_NULL_DATA)) :
    ((st.cols.getD c default).ctype_ = SQL_C_WCHAR →
      getWith get_ref_impl_int64 st c = .typeIncompatible) ∧
    (∀ b bs, (st.cols.getD c default).ctype_ = SQL_C_CHAR →
      readCell (st.cols.getD c default) st.rowset_position.toNat =
        some (.chars (b :: bs)) →
      getWith get_ref_impl_int64 st c = .ok b) ∧
    (∀ v : Int, (st.cols.getD c default).ctype_ = SQL_C_SBIGINT →
      readCell (st.cols.getD c default) st.rowset_position.toNat =
        some (.i64 v) →
      getWith get_ref_impl_string st c =
        .ok (((intToDecBytes v).take (st.cols.getD c default).sqlsize_).takeWhile
          fun b => b ≠ 0)) := by
  have hnb : ¬st.cols.length ≤ c := by omega
  have hisnull : isNull st c = .ok false := by
    unfold isNull
    dsimp only
    rw [if_neg hnb, if_neg (not_le.mpr hpos)]
    simp only [GetResult.ok.injEq, decide_eq_false_iff_not]
    exact hnotnull
  have hget : ∀ {α : Type} (impl : ResultState → Nat → GetResult α),
      getWith impl st c = impl st c := by
    intro α impl
    unfold getWith getRefWith
    simp [hisnull, hnb]
  refine ⟨?_, ?_, ?_⟩
  · intro hw
    rw [hget]
    unfold get_ref_impl_int64
    dsimp only
    rw [hw]
    norm_num [SQL_C_WCHAR, SQL_C_CHAR, SQL_C_SSHORT, SQL_C_USHORT, SQL_C_LONG,
      SQL_C_SLONG, SQL_C_ULONG, SQL_C_FLOAT, SQL_C_DOUBLE, SQL_C_SBIGINT,
      SQL_C_UBIGINT]
  · intro b bs hch hcell
    rw [hget]
    unfold get_ref_impl_int64
    dsimp only
    rw [hch, hcell]
    norm_num [SQL_C_CHAR]
  · intro v hbig hcell
    rw [hget]
    unfold get_ref_impl_string
    dsimp only
    rw [hbig, hcell]
    norm_num [SQL_C_CHAR, SQL_C_BINARY, SQL_C_WCHAR, SQL_C_GUID, SQL_C_LONG,
      SQL_C_SBIGINT, SQL_C_FLOAT, SQL_C_DOUBLE, SQL_C_DATE, SQL_C_TIME,
      SQL_C_TIMESTAMP]

/-- C8 witness: at the concrete narrow-character column holding "7",
the amended dispatch instantiates (in particular `get<int64_t>` yields
byte 55 through the `SQL_C_CHAR` case). -/
theorem C8_numeric_char_dispatch_witness :
    ((charState.cols.getD 0 default).ctype_ = SQL_C_WCHAR →
      getWith get_ref_impl_int64 charState 0 = .typeIncompatible) ∧
    (∀ b bs, (charState.cols.getD 0 default).ctype_ = SQL_C_CHAR →
      readCell (charState.cols.getD 0 default)
          charState.rowset_position.toNat = some (.chars (b :: bs)) →
      getWith get_ref_impl_int64 charState 0 = .ok b) ∧
    (∀ v : Int, (charState.cols.getD 0 default).ctype_ = SQL_C_SBIGINT →
      readCell (charState.cols.getD 0 default)
          charState.rowset_position.toNat = some (.i64 v) →
      getWith get_ref_impl_string charState 0 =
        .ok (((intToDecBytes v).take
            (charState.cols.getD 0 default).sqlsize_).takeWhile
          fun b => b ≠ 0)) :=
  C8_numeric_char_dispatch charState 0 (by decide) (by decide) (by decide)

/-- `intercalate` with a one-space separator, unfolded to the form the
diagnostic loop produces. -/
theorem intercalate_space (x : List Char) (xs : List (List Char)) :
    List.intercalate [' '] (x :: xs) = x ++ (xs.map fun m => ' ' :: m).join := by
  induction xs generalizing x with
  | nil => simp [List.intercalate]
  | cons y ys ih =>
      have h : List.intercalate [' '] (x :: y :: ys) =
          x ++ [' '] ++ List.intercalate [' '] (y :: ys) := by
        simp [List.intercalate, List.intersperse]
      rw [h, ih y]
      simp

set_option maxRecDepth 4000 in
/-- C9 counterexample: with two stacked diagnostic records (messages
"msga" and "msgb"), the composed status message separates the records by
TWO spaces and carries a trailing space — each record is appended together
with its NUL terminator, which the final NUL→space replacement turns into
an extra space — refuting "concatenated with a single separating space". -/
theorem C9_counterexample :
    (recent_error [diagA, diagB] true).status = "FGHIJ: msga  msgb ".toList ∧
    "FGHIJ: msga  msgb ".toList ≠ "FGHIJ: msga msgb".toList := by
  constructor
  · rfl
  · decide

/-- C9 amended: every native failure raises one structured database error
carrying a SQLSTATE code, a native error code and a composed message; the
SQLSTATE and native code are those of the LAST diagnostic record read, and
the message is `state + ": " + records` where the records are joined by a
single explicit space but each record is appended together with its NUL
terminator, so after the final NUL→space replacement consecutive records
are separated by two spaces and the message ends in a trailing space
(every NUL byte inside a driver message likewise becomes a space).
Stated for the build that walks all records; the non-Windows build stops
after the first record. -/
theorem C9_diag_error (r : DiagRecord) (rest : List DiagRecord)
    (hmsg : ∀ x ∈ r :: rest, x.message ≠ [])
    (hst : ∀ x ∈ r :: rest, x.state.length = 5) :
    recent_error (r :: rest) true =
      ⟨((rest.getLast?.getD r).state ++ (": ".toList) ++
          List.intercalate [' ']
            ((r :: rest).map fun x => x.message ++ [nulChar])).map
          (fun ch => if ch = nulChar then ' ' else ch),
        (rest.getLast?.getD r).state,
        (rest.getLast?.getD r).native⟩ ∧
    (∀ info : List Char, mkDatabaseError info (r :: rest) true =
      ⟨info ++ (recent_error (r :: rest) true).status,
        (recent_error (r :: rest) true).native,
        (recent_error (r :: rest) true).state⟩) := by
  refine ⟨?_, fun info => rfl⟩
  have hm : r.message ≠ [] := hmsg r (by simp)
  have hs5 : r.state.length = 5 := hst r (by simp)
  have hres : 0 < r.message.length := List.length_pos.mpr hm
  have hloop : diagLoop true (r :: rest) []
      (List.replicate SQL_MAX_MESSAGE_LENGTH nulChar)
      (List.replicate 6 nulChar) 0 =
      ((r.message ++ [nulChar]) ++
        (rest.map fun x => ' ' :: (x.message ++ [nulChar])).join,
        (rest.getLast?.getD r).state ++ [nulChar],
        (rest.getLast?.getD r).native) := by
    unfold diagLoop
    dsimp only
    rw [if_pos hres,
      write_resize (List.replicate SQL_MAX_MESSAGE_LENGTH nulChar)
        r.message hm,
      write_state (List.replicate 6 nulChar) r.state (by simp) hs5,
      if_pos (show (List.isEmpty ([] : List Char)) = true from rfl),
      List.nil_append]
    rw [diagLoop_spec rest (r.message ++ [nulChar]) (r.message ++ [nulChar])
      (r.state ++ [nulChar]) r.native (by simp)
      (fun x hx => hmsg x (by simp [hx])) (fun x hx => hst x (by simp [hx]))
      (by simp [hs5])]
    rcases hl : rest.getLast? with _ | x <;> simp [hl]
  have htake : ((rest.getLast?.getD r).state ++ [nulChar]).take 5 =
      (rest.getLast?.getD r).state := by
    have hmem : rest.getLast?.getD r ∈ r :: rest := by
      rcases hl : rest.getLast? with _ | x
      · simp
      · obtain ⟨hne, hx⟩ := List.mem_getLast?_eq_getLast (l := rest) (x := x)
          (by rw [hl]; rfl)
        simp only [Option.getD_some]
        exact List.mem_cons_of_mem r (hx ▸ List.getLast_mem hne)
    have h5 : (rest.getLast?.getD r).state.length = 5 := hst _ hmem
    rw [← h5]
    exact List.take_left _ _
  unfold recent_error
  rw [hloop]
  dsimp only
  rw [htake, List.map_cons, intercalate_space, List.map_map]
  rfl

/-- C9 witness: the amended description instantiated at the two concrete
stacked records. -/
theorem C9_diag_error_witness :
    recent_error [diagA, diagB] true =
      ⟨(([diagB].getLast?.getD diagA).state ++ (": ".toList) ++
          List.intercalate [' ']
            ([diagA, diagB].map fun x => x.message ++ [nulChar])).map
          (fun ch => if ch = nulChar then ' ' else ch),
        ([diagB].getLast?.getD diagA).state,
        ([diagB].getLast?.getD diagA).native⟩ ∧
    (∀ info : List Char, mkDatabaseError info [diagA, diagB] true =
      ⟨info ++ (recent_error [diagA, diagB] true).status,
        (recent_error [diagA, diagB] true).native,
        (recent_error [diagA, diagB] true).state⟩) :=
  C9_diag_error diagA [diagB] (by decide) (by decide)

/-- C10 witness: on the freshly constructed one-column result (no fetch
yet, rows-fetched counter 0), every accessor raises the index-range
error. -/
theorem C10_unpositioned_access_witness :
    isNull int64State 0 = .indexRange ∧
    getRefWith get_ref_impl_int64 int64State 0 = .indexRange ∧
    getRefFallbackWith get_ref_impl_int64 int64State 0 7 = .indexRange ∧
    getWith get_ref_impl_int64 int64State 0 = .indexRange ∧
    getFallbackWith get_ref_impl_int64 int64State 0 7 = .indexRange ∧
    getRefByNameWith get_ref_impl_int64 int64State "n" = .indexRange ∧
    getRefByNameFallbackWith get_ref_impl_int64 int64State "n" 7 =
      .indexRange :=
  C10_unpositioned_access get_ref_impl_int64 int64State 0 7 "n" (by decide)

end Nanodbc
